import Mathlib

/-!
# Verification of the adventure combat-resolution and difficulty-adaptation engine

This file gives a shallow embedding, in Lean 4, of the parts of the
`gobcog_boba` adventure cog that the specification's testable properties
talk about:

* `adventureresult.py` — the bounded per-community outcome history
  (`AdventureResults.add_result`, `get_stat_range`);
* `adventure.py` — the difficulty scaler (`_dynamic_monster_stats_simple`,
  `fluctuate_stats`), the action resolvers (`handle_fight`, `handle_talk`,
  `handle_pray`), the gate check (`handle_basilisk`), the treasure tables
  (`get_treasure`), the reward distributor (`_reward`) and the failure-path
  currency penalty in `_result` (together with `roll_pet_gold_loss`).

Python floats are embedded as exact rationals (`ℚ`), Python ints as `ℤ`.
Randomness (`random.randint`, `random.uniform`, `random.choice`) is made
explicit: every random draw becomes a parameter of the embedded function,
constrained by the hypothesis the library guarantees (e.g. a `randint(a, b)`
draw `r` satisfies `a ≤ r ∧ r ≤ b`).
-/

namespace Adventure

/-- Python's `int(x)` on a float/rational: truncation toward zero. -/
def pyTrunc (q : ℚ) : ℤ := if 0 ≤ q then ⌊q⌋ else ⌈q⌉

/-- Python's builtin `round(x)` to an integer: round-half-to-even
(banker's rounding). -/
def pyRound (q : ℚ) : ℤ :=
  let f := ⌊q⌋
  let r := q - f
  if r < 1/2 then f
  else if 1/2 < r then f + 1
  else if f % 2 = 0 then f else f + 1

/-- Python's floor division `a // b` on integers. -/
def pyFloorDiv (a b : ℤ) : ℤ := Int.fdiv a b

/-! ## Outcome History: `adventureresult.py`

`AdventureResults` stores, per guild, a bounded list (`_last_raids`) of
`Raid` records. We embed users as natural-number ids and the `auto_users`
dict as an association list keyed by user id. -/

/-- One `Raid` record (`adventureresult.py`, class `Raid`). -/
structure Raid where
  main_action : String
  amount : ℚ
  num_ppl : ℕ
  success : Bool
  auto_users : List (ℕ × ℤ)
  deriving Repr, DecidableEq

/-- Python dict lookup `d[k]` / `k in d` combined: find the value for a key
in an association list. -/
def dictFind (m : List (ℕ × ℤ)) (k : ℕ) : Option ℤ :=
  (m.find? (fun p => p.1 = k)).map Prod.snd

/-- Python dict assignment `d[k] = v` on an association list: overwrite the
existing binding or append a new one. -/
def dictSet (m : List (ℕ × ℤ)) (k : ℕ) (v : ℤ) : List (ℕ × ℤ) :=
  if (m.find? (fun p => p.1 = k)).isSome then
    m.map (fun p => if p.1 = k then (k, v) else p)
  else m ++ [(k, v)]

/-- Python `d.pop(k, None)` on an association list: remove a binding. -/
def dictPop (m : List (ℕ × ℤ)) (k : ℕ) : List (ℕ × ℤ) :=
  m.filter (fun p => ¬ p.1 = k)

/-- The `saved_auto_users` bookkeeping of `AdventureResults.add_result`
(`adventureresult.py` lines 56-82): manual users get a fresh counter
`num_raids * 2`; auto users are carried over from the previous raid's
`auto_users` map, decremented by one, dropped at zero, and reset when they
were absent from the previous map; excluded users are removed at the end. -/
def savedAutoUsers (numRaids : ℕ) (prevRaids : List Raid)
    (manualUsers autoUsers exclusionUsers : List ℕ) : List (ℕ × ℤ) :=
  let seeded := manualUsers.foldl (fun m u => dictSet m u (numRaids * 2)) []
  let withAuto :=
    match prevRaids.getLast? with
    | some raid =>
        autoUsers.foldl
          (fun m u =>
            let count : ℤ :=
              match dictFind raid.auto_users u with
              | none => numRaids * 2
              | some c => c
            let m := match dictFind raid.auto_users u with
              | none => dictSet m u (numRaids * 2)
              | some _ => m
            if count = 0 then m else dictSet m u (count - 1))
          seeded
    | none =>
        autoUsers.foldl (fun m u => dictSet m u ((numRaids : ℤ) * 2 - 1)) seeded
  exclusionUsers.foldl (fun m u => dictPop m u) withAuto

/-- Arguments of one `add_result` call other than the guild id. -/
structure AddResultArgs where
  main_action : String
  amount : ℚ
  num_ppl : ℕ
  success : Bool
  manual_users : List ℕ
  auto_users : List ℕ
  exclusion_users : List ℕ

/-- The `Raid` record appended by one `add_result` call
(`adventureresult.py` lines 84-86). -/
def mkRaid (numRaids : ℕ) (raids : List Raid) (a : AddResultArgs) : Raid :=
  { main_action := a.main_action, amount := a.amount,
    num_ppl := a.num_ppl, success := a.success,
    auto_users := savedAutoUsers numRaids raids
      a.manual_users a.auto_users a.exclusion_users }

/-- `AdventureResults.add_result` restricted to a single guild's queue
(`adventureresult.py` lines 47-86): when the queue already holds at least
`num_raids` records the oldest (`pop(0)`, a no-op on the empty list because
the `IndexError` is swallowed) is evicted first; the auto-user bookkeeping
then reads the previous record from the already-popped queue, and the new
record is appended. -/
def addResult (numRaids : ℕ) (raids : List Raid) (a : AddResultArgs) : List Raid :=
  let popped := if numRaids ≤ raids.length then raids.tail else raids
  popped ++ [mkRaid numRaids popped a]

/-- A whole history of `add_result` calls for one guild, applied to the
initially-empty queue. -/
def runAddResults (numRaids : ℕ) (calls : List AddResultArgs) : List Raid :=
  calls.foldl (addResult numRaids) []

/-- The `StatRange` record returned by `get_stat_range`. -/
structure StatRange where
  stat_type : String
  min_stat : ℚ
  max_stat : ℚ
  average_talk : ℚ
  average_attack : ℚ
  win_percent : ℚ
  deriving Repr, DecidableEq

/-- Accumulator state of the tally loop in `get_stat_range`
(`adventureresult.py` lines 130-142). -/
structure Tally where
  num_attack : ℕ
  attack_amount : ℚ
  num_talk : ℕ
  talk_amount : ℚ
  num_wins : ℕ
  deriving Repr, DecidableEq

/-- One iteration of the tally loop in `get_stat_range`: solo raids
(`num_ppl == 1`) contribute their amount once more scaled by
`SOLO_RAID_SCALE = 0.25`. -/
def tallyStep (t : Tally) (raid : Raid) : Tally :=
  let t :=
    if raid.main_action = "attack" then
      { t with num_attack := t.num_attack + 1,
               attack_amount := t.attack_amount + raid.amount +
                 (if raid.num_ppl = 1 then raid.amount * (1/4) else 0) }
    else
      { t with num_talk := t.num_talk + 1,
               talk_amount := t.talk_amount + raid.amount +
                 (if raid.num_ppl = 1 then raid.amount * (1/4) else 0) }
  if raid.success then { t with num_wins := t.num_wins + 1 } else t

/-- `AdventureResults.get_stat_range` restricted to a single guild's queue
(`adventureresult.py` lines 104-159). -/
def getStatRange (raids : List Raid) : StatRange :=
  if raids.length = 0 then
    { stat_type := "hp", min_stat := 200, max_stat := 600,
      win_percent := 1/2, average_talk := 0, average_attack := 0 }
  else
    let t := raids.foldl tallyStep
      { num_attack := 0, attack_amount := 0, num_talk := 0,
        talk_amount := 0, num_wins := 0 }
    let average_talk : ℚ := if 0 < t.num_talk then t.talk_amount / t.num_talk else 0
    let average_attack : ℚ := if 0 < t.num_attack then t.attack_amount / t.num_attack else 0
    let avg_amount : ℚ := if 0 < t.num_attack then average_attack else 0
    let stat_type := if t.attack_amount < t.talk_amount then "dipl" else "hp"
    let avg_amount := if t.attack_amount < t.talk_amount then average_talk else avg_amount
    let win_percent : ℚ := t.num_wins / raids.length
    let min_stat := if win_percent < 1/2 then avg_amount * win_percent else avg_amount * (1/2)
    let max_stat := if win_percent < 1/2 then avg_amount * (3/2) else avg_amount * 2
    { stat_type := stat_type, min_stat := min_stat, max_stat := max_stat,
      win_percent := win_percent, average_talk := average_talk,
      average_attack := average_attack }

/-- The records the tally loop counts as "attack" records: exactly those
whose `main_action` is the string `"attack"`. -/
def attackRaids (raids : List Raid) : List Raid :=
  raids.filter (fun r => r.main_action = "attack")

/-- The records the tally loop counts as "talk" records: everything whose
`main_action` is not `"attack"`. -/
def talkRaids (raids : List Raid) : List Raid :=
  raids.filter (fun r => ¬ r.main_action = "attack")

/-- The amount one record contributes to its category total: solo raids
(`num_ppl == 1`) are counted once more at `SOLO_RAID_SCALE = 0.25`. -/
def soloAdjAmount (r : Raid) : ℚ :=
  r.amount + (if r.num_ppl = 1 then r.amount * (1/4) else 0)

/-- Number of successful records in a queue. -/
def winCount (raids : List Raid) : ℕ :=
  (raids.filter (fun r => r.success)).length

/-- Insertion of a rational into a sorted list (used to define the median
the spec claims). -/
def insertSorted (x : ℚ) : List ℚ → List ℚ
  | [] => [x]
  | y :: ys => if x ≤ y then x :: y :: ys else y :: insertSorted x ys

/-- Insertion sort on rationals. -/
def sortRats (l : List ℚ) : List ℚ := l.foldr insertSorted []

/-- The statistic the spec claims `get_stat_range` computes per category
(written from the spec's words, for comparison with the code): the median
of a list of rationals — middle element of the sorted list, or the average
of the two middle elements for even length, `0` for the empty list. -/
def specMedian (l : List ℚ) : ℚ :=
  let s := sortRats l
  if l.length = 0 then 0
  else if l.length % 2 = 1 then s.getD (l.length / 2) 0
  else (s.getD (l.length / 2 - 1) 0 + s.getD (l.length / 2) 0) / 2

/-- A concrete three-record history: two failed attack raids dealing 0 and
one successful attack raid dealing 30, all with two participants. -/
def sampleAttackQueue : List Raid :=
  [{ main_action := "attack", amount := 0, num_ppl := 2, success := false,
     auto_users := [] },
   { main_action := "attack", amount := 0, num_ppl := 2, success := false,
     auto_users := [] },
   { main_action := "attack", amount := 30, num_ppl := 2, success := true,
     auto_users := [] }]

/-! ## Action Resolvers: roll machinery (`adventure.py`)

The melee (`handle_fight`, fight loop), magic (`handle_fight`, magic loop),
diplomacy (`handle_talk`) and priestly supplication (`handle_pray`, cleric
branch) paths share one roll shape: a critical modifier from dexterity,
luck and the relevant stat, capped per rebirth tier, then a
`randint(1 + mod, max_roll)` draw. -/

/-- Roll ceiling by rebirth tier
(`adventure.py` lines 1883, 1972, 2107, 2264). -/
def maxRollFor (rebirths : ℕ) : ℤ :=
  if 30 ≤ rebirths then 100 else if 15 ≤ rebirths then 50 else 20

/-- Critical modifier of the melee/magic/supplication paths:
`max(max(dex, luck // 2) + stat // 20, 0)`
(`adventure.py` lines 1881, 1970, 2105; the relevant stat is `total_att`
for melee and `total_int` for magic and the cleric path). -/
def critMod (dex luck stat : ℤ) : ℤ :=
  max (max dex (pyFloorDiv luck 2) + pyFloorDiv stat 20) 0

/-- Critical modifier of the diplomacy path:
`max(max(dex, luck // 2) + int // 50 + cha // 20, 0)`
(`adventure.py` line 2262). -/
def critModTalk (dex luck intStat cha : ℤ) : ℤ :=
  max (max dex (pyFloorDiv luck 2) + pyFloorDiv intStat 50 + pyFloorDiv cha 20) 0

/-- `mod = round(crit_mod / 10)` guarded by `crit_mod != 0`
(`adventure.py` lines 1884-1885). -/
def rollMod (cm : ℤ) : ℤ := if cm = 0 then 0 else pyRound ((cm : ℚ) / 10)

/-- Modifier/ceiling capping of the melee, magic and supplication paths
(`adventure.py` lines 1886-1890, 1975-1979, 2110-2114): when
`rebirths < 15 < mod` the modifier is capped at 15 and the ceiling reset
to 20; otherwise a modifier with `mod + 1 > 45` is capped at 45.
Returns `(mod, max_roll)`. -/
def rollCap (cm : ℤ) (rebirths : ℕ) : ℤ × ℤ :=
  let maxRoll := maxRollFor rebirths
  let m := rollMod cm
  if rebirths < 15 ∧ 15 < m then (15, 20)
  else if 45 < m + 1 then (45, maxRoll)
  else (m, maxRoll)

/-- The same capping in `handle_talk` (`adventure.py` lines 2267-2270),
whose first branch does not reassign `max_roll` (it is already 20 there). -/
def rollCapTalk (cm : ℤ) (rebirths : ℕ) : ℤ × ℤ :=
  let maxRoll := maxRollFor rebirths
  let m := rollMod cm
  if rebirths < 15 ∧ 15 < m then (15, maxRoll)
  else if 45 < m + 1 then (45, maxRoll)
  else (m, maxRoll)

/-- The final roll `max(randint(1 + mod, max_roll), 1)` applied to the
uniform draw `r` (`adventure.py` lines 1892, 1981, 2115, 2271). -/
def finalRoll (r : ℤ) : ℤ := max r 1

/-! ## Action Resolvers: roll classification -/

/-- Modelled from the spec: the `HeroClasses` enum lives in `constants.py`,
which is not among the sources; only the classes the resolver branches
compare against are distinguished, `other` stands for the rest. -/
inductive HeroClass where
  | berserker | ranger | wizard | bard | cleric | other
  deriving DecidableEq, Repr

/-- Classification of the three roll outcomes ("fumble", "critical",
"normal") a resolver assigns to an actor's roll. -/
inductive RollOutcome where
  | fumble | critical | normal
  deriving DecidableEq, Repr

/-- Branch classification of the melee loop of `handle_fight`
(`adventure.py` lines 1898, 1914, 1955): fumble when
`roll / max_roll < 0.10` or `roll + att_value <= 0`; otherwise critical
when `roll / max_roll > 0.95` or the class is berserker or ranger;
otherwise normal. -/
def classifyFight (roll maxRoll att : ℤ) (hc : HeroClass) : RollOutcome :=
  let rollPerc : ℚ := (roll : ℚ) / (maxRoll : ℚ)
  if rollPerc < 1/10 ∨ roll + att ≤ 0 then .fumble
  else if 19/20 < rollPerc ∨ hc = .berserker ∨ hc = .ranger then .critical
  else .normal

/-- Branch classification of the magic loop of `handle_fight`
(`adventure.py` lines 1986, 2014, 2040). -/
def classifyMagic (roll maxRoll intStat : ℤ) (hc : HeroClass) : RollOutcome :=
  let rollPerc : ℚ := (roll : ℚ) / (maxRoll : ℚ)
  if rollPerc < 1/10 ∨ roll + intStat ≤ 0 then .fumble
  else if 19/20 < rollPerc ∨ hc = .wizard then .critical
  else .normal

/-- Branch classification of `handle_talk`
(`adventure.py` lines 2275, 2289, 2316). -/
def classifyTalk (roll maxRoll cha : ℤ) (hc : HeroClass) : RollOutcome :=
  let rollPerc : ℚ := (roll : ℚ) / (maxRoll : ℚ)
  if rollPerc < 1/10 ∨ roll + cha ≤ 0 then .fumble
  else if 19/20 < rollPerc ∨ hc = .bard then .critical
  else .normal

/-- "Exactly one classification applies": the outcome is one of the three
labels and never two of them at once. -/
def exactlyOneOutcome (c : RollOutcome) : Prop :=
  (c = .fumble ∧ ¬ c = .critical ∧ ¬ c = .normal) ∨
  (c = .critical ∧ ¬ c = .fumble ∧ ¬ c = .normal) ∨
  (c = .normal ∧ ¬ c = .fumble ∧ ¬ c = .critical)

/-! ## Gate Check and encounter outcome -/

/-- One equipped item as the gate check sees it: its display name and
whether its rarity is `forged` (the one rarity the scan skips).  The full
`Item`/`Rarities` machinery lives in `charsheet.py`/`constants.py`, which
are not among the sources. -/
structure EquippedItem where
  name : List Char
  isForged : Bool

/-- One participant as the gate check sees it: owned gear-set names and the
currently equipped items (participants whose character sheet fails to load
are skipped by the loop and therefore simply absent from this list). -/
structure GateParticipant where
  sets : List (List Char)
  equipment : List EquippedItem

/-- `needle in hay` on strings, as the gate check uses it. -/
def strContains (needle hay : List Char) : Bool :=
  (List.range (hay.length + 1)).any (fun i => needle.isPrefixOf (hay.drop i))

/-- The two gear sets that pass the gate outright
(`adventure.py` line 2359). -/
def specialSets : List (List Char) :=
  ["The Supreme One".data, "Ainz Ooal Gown".data]

/-- Whether one equipped item satisfies the relic requirement
(`adventure.py` lines 2364-2368): not forged, and its name contains the
required item or the word "shiny" (case-insensitively). -/
def itemTriggers (reqItem : List Char) (it : EquippedItem) : Bool :=
  !it.isForged &&
    (strContains reqItem it.name ||
     strContains "shiny".data (it.name.map Char.toLower))

/-- `handle_basilisk` (`adventure.py` lines 2335-2373): for guardian
(miniboss) encounters the gate fails unless the party is large enough
(`members` requirement), the required reaction was registered (`emoji`
requirement), or some participant owns a special set or wears a matching
item; non-guardian encounters never fail the gate.  `miniboss` carries the
requirement pair `(req_item, slot)`. -/
def handleBasilisk (miniboss : Option (List Char × ℤ)) (reacted : Bool)
    (participants : List GateParticipant) : Bool :=
  match miniboss with
  | none => false
  | some (reqItem, slot) =>
      if reqItem = "members".data then
        ¬ slot < (participants.length : ℤ)
      else if reqItem = "emoji".data ∧ reacted then
        false
      else
        ¬ participants.any (fun p =>
            specialSets.any (fun s => p.sets.contains s) ||
            p.equipment.any (fun it => itemTriggers reqItem it))

/-- The encounter outcome computed in `_result`
(`adventure.py` lines 1341-1369): `slain` when the truncated
attack+magic total reaches the (integer) hp target, `persuaded` when the
truncated diplomacy total reaches the dipl target, and
`success = (slain or persuaded) and not failed` where `failed` is the gate
check result. -/
def resultSuccess (attack magic diplomacy : ℚ) (hp dipl : ℤ)
    (failed : Bool) : Bool :=
  let dmg_dealt := pyTrunc (attack + magic)
  let diplo := pyTrunc diplomacy
  let slain := decide (hp ≤ dmg_dealt)
  let persuaded := decide (dipl ≤ diplo)
  (slain || persuaded) && !failed

/-! ## Difficulty Scaler -/

/-- A monster's stat block as `_dynamic_monster_stats_simple` mutates it:
hit-points, diplomacy-points and the three defense multipliers. -/
structure Monster where
  hp : ℚ
  dipl : ℚ
  pdef : ℚ
  mdef : ℚ
  cdef : ℚ

/-- `fluctuate_stats(value, bottom)` (`adventure.py` lines 701-703) with
the `random.uniform(bottom, bottom + 0.4)` draw `u` made explicit. -/
def fluctuateStats (value bottom u : ℚ) : ℚ := u * value

/-- The five uniform draws one call of `_dynamic_monster_stats_simple`
makes, each constrained to `[win_percent, win_percent + 0.4]`. -/
structure FluctuateDraws where
  hpU : ℚ
  diplU : ℚ
  pdefU : ℚ
  mdefU : ℚ
  cdefU : ℚ

/-- `_dynamic_monster_stats_simple` (`adventure.py` lines 705-722): hp and
dipl are scaled from the historical average when one exists, otherwise
from the monster's own baseline, both multiplied by the stat multiplier;
the three defenses are fluctuated from their baselines.  No flooring
happens here. -/
def dynamicMonsterStatsSimple (statRange : StatRange) (choice : Monster)
    (monsterStats : ℚ) (d : FluctuateDraws) : Monster :=
  let wp := statRange.win_percent
  { hp :=
      if statRange.average_attack = 0 then
        fluctuateStats (choice.hp * monsterStats) wp d.hpU
      else
        fluctuateStats (statRange.average_attack * monsterStats) wp d.hpU,
    dipl :=
      if statRange.average_talk = 0 then
        fluctuateStats (choice.dipl * monsterStats) wp d.diplU
      else
        fluctuateStats (statRange.average_talk * monsterStats) wp d.diplU,
    pdef := fluctuateStats choice.pdef wp d.pdefU,
    mdef := fluctuateStats choice.mdef wp d.mdefU,
    cdef := fluctuateStats choice.cdef wp d.cdefU }

/-- The physical defense value `handle_fight` actually divides by:
`max(session.monster_modified_stats["pdef"], 0.5)`
(`adventure.py` line 1863). -/
def usedPdef (m : Monster) : ℚ := max m.pdef (1/2)

/-- The magic defense value `handle_fight` actually divides by
(`adventure.py` line 1864). -/
def usedMdef (m : Monster) : ℚ := max m.mdef (1/2)

/-- The social defense value `handle_talk` actually divides by
(`adventure.py` line 2241). -/
def usedCdef (m : Monster) : ℚ := max m.cdef (1/2)

/-! ## Treasure Tables -/

/-- Modelled from the spec: a Treasure Bundle is an immutable multiset of
loot-tier counts (six tiers); the `Treasure` class itself lives in
`constants.py`, which is not among the sources.  Field defaults mirror the
keyword-argument constructor calls; `setPiece` stands for the `_set`
tier.  An all-zero bundle is falsy (`if not treasure`). -/
structure Treasure where
  normal : ℕ := 0
  rare : ℕ := 0
  epic : ℕ := 0
  legendary : ℕ := 0
  ascended : ℕ := 0
  setPiece : ℕ := 0
  deriving DecidableEq, Repr

/-- The empty Treasure Bundle `Treasure()`. -/
def emptyTreasure : Treasure := {}

/-- `random.choice` on a candidate bundle list, with the draw made
explicit as an index reduced modulo the list length. -/
def choosePick (l : List Treasure) (pick : ℕ) : Treasure :=
  l.getD (pick % l.length) emptyTreasure

/-- The "no-target" bundle list (`adventure.py` lines 1097-1107). -/
def noMonsterLoot : List Treasure :=
  [{ setPiece := 1 }, { ascended := 1, setPiece := 2 },
   { epic := 3, legendary := 1 }, { legendary := 3, ascended := 2 },
   { epic := 1, legendary := 3, setPiece := 1 },
   { epic := 1, legendary := 2, ascended := 1 },
   { epic := 1, legendary := 5, ascended := 2, setPiece := 1 },
   { epic := 1, legendary := 5, ascended := 1, setPiece := 1 },
   { epic := 1, legendary := 1, ascended := 1, setPiece := 1 }]

/-- The transcended-boss bundle list (`adventure.py` lines 1116-1120). -/
def transcendedBossLoot : List Treasure :=
  [{ epic := 1, legendary := 5, ascended := 2, setPiece := 3 },
   { epic := 2, legendary := 6, ascended := 1, setPiece := 3 },
   { epic := 3, legendary := 7, ascended := 1, setPiece := 3 }]

/-- The transcended non-boss bundle list (`adventure.py` lines 1122-1127). -/
def transcendedLoot : List Treasure :=
  [{ epic := 1, legendary := 5, ascended := 1, setPiece := 1 },
   { epic := 2, legendary := 3, setPiece := 1 },
   { epic := 3, legendary := 1, ascended := 1, setPiece := 1 },
   { epic := 1, legendary := 5, setPiece := 1 }]

/-- The boss bundle list (`adventure.py` lines 1130-1134). -/
def bossLoot : List Treasure :=
  [{ epic := 3, legendary := 5, setPiece := 1 },
   { epic := 1, legendary := 2, ascended := 1, setPiece := 1 },
   { legendary := 3, ascended := 2, setPiece := 1 }]

/-- The miniboss bundle list (`adventure.py` lines 1137-1142). -/
def minibossLoot : List Treasure :=
  [{ epic := 4, ascended := 2 }, { epic := 2, legendary := 1, ascended := 2 },
   { epic := 3, legendary := 2 }, { rare := 6, legendary := 3, ascended := 2 }]

/-- `get_treasure` (`adventure.py` lines 1086-1214) with the
`randint(1, 10)` draw `roll` and the `random.choice` index `pick` made
explicit.  The trailing `if not treasure: treasure = Treasure()` replaces
an all-zero bundle by the empty bundle and is therefore the identity. -/
def getTreasure (noMonster transcended boss miniboss : Bool) (hp dipl : ℤ)
    (slain persuaded failed critBonus : Bool) (roll : ℕ) (pick : ℕ) : Treasure :=
  if noMonster then choosePick noMonsterLoot pick
  else if (slain || persuaded) && !failed then
    let monster_amount : ℤ :=
      if slain && persuaded then hp + dipl else if slain then hp else dipl
    let treasure :=
      if transcended then
        if boss && !noMonster then choosePick transcendedBossLoot pick
        else choosePick transcendedLoot pick
      else if boss then choosePick bossLoot pick
      else if miniboss then choosePick minibossLoot pick
      else if 8000 ≤ monster_amount then
        choosePick [{ epic := 3, legendary := 3, ascended := 1 },
                    { epic := 1, legendary := 5 },
                    { epic := 1, legendary := 2, ascended := 1 }] pick
      else if 6000 ≤ monster_amount then
        if roll ≤ 9 then
          choosePick [{ epic := 3, legendary := 3 },
                      { epic := 1, legendary := 1, ascended := 1 },
                      { legendary := 2, ascended := 1 }] pick
        else emptyTreasure
      else if 5000 ≤ monster_amount then
        if roll ≤ 7 then
          choosePick [{ epic := 3, legendary := 3 },
                      { epic := 1, legendary := 1, ascended := 1 },
                      { legendary := 2, ascended := 1 }] pick
        else emptyTreasure
      else if 3000 ≤ monster_amount then
        if roll ≤ 7 then
          choosePick [{ epic := 3, legendary := 1 },
                      { epic := 1, legendary := 2 },
                      { legendary := 1, ascended := 1 }] pick
        else emptyTreasure
      else if 1500 ≤ monster_amount then
        if roll ≤ 7 then
          choosePick [{ rare := 1, epic := 3 }, { rare := 5, epic := 1 },
                      { epic := 2, legendary := 1 }] pick
        else emptyTreasure
      else if 700 ≤ monster_amount then
        if roll ≤ 7 then
          choosePick [{ epic := 1 }, { rare := 1 }, { legendary := 1 }] pick
        else emptyTreasure
      else if 500 ≤ monster_amount then
        if roll ≤ 5 then
          choosePick [{ epic := 1 }, { rare := 1 }, { rare := 1, epic := 1 }] pick
        else emptyTreasure
      else if 300 ≤ monster_amount then
        if roll ≤ 2 then
          choosePick [{ normal := 1 }, { rare := 1 },
                      { normal := 1, rare := 1 }] pick
        else emptyTreasure
      else if 80 ≤ monster_amount then
        if roll = 1 then { normal := 1 } else emptyTreasure
      else emptyTreasure
    if critBonus then { treasure with epic := treasure.epic + 1 } else treasure
  else emptyTreasure

/-! ## Reward Distributor -/

/-- The per-actor experience reward of `_reward`
(`adventure.py` lines 2603, 2627, 2632, 2635-2636): the base amount
(floored at 1), plus half the base per rebirth, plus a stat bonus
`xp * 0.1 * min(250, total_stats / 50)` floored at 0, truncated, taken at
75% and rounded; then truncated after multiplication by
`xpmult + daymult + session_bonus`; auto actors get the floor-half. -/
def rewardUserXp (amount : ℤ) (rebirths : ℕ) (totalStats : ℤ)
    (xpmult daymult sessionBonus : ℚ) (isAuto : Bool) : ℤ :=
  let xp : ℤ := max 1 amount
  let base := pyRound ((3/4 : ℚ) *
    (pyTrunc ((xp : ℚ) + (xp : ℚ) * (1/2) * rebirths +
      max ((xp : ℚ) * (1/10) * min 250 ((totalStats : ℚ) / 50)) 0) : ℤ))
  let m := pyTrunc ((base : ℚ) * (xpmult + daymult + sessionBonus))
  if isAuto then pyFloorDiv m 2 else m

/-- The per-actor currency reward of `_reward`
(`adventure.py` lines 2604, 2628, 2633, 2635-2637): like the experience
reward but with stat bonus `cp * 0.1 * min(1000, total_stats / 35)`,
multiplier `cpmult + daymult`, and — unlike experience — **no** rebirth
term. -/
def rewardUserCp (amount : ℤ) (rebirths : ℕ) (totalStats : ℤ)
    (cpmult daymult : ℚ) (isAuto : Bool) : ℤ :=
  let cp : ℤ := max 1 amount
  let base := pyRound ((3/4 : ℚ) *
    (pyTrunc ((cp : ℚ) +
      max ((cp : ℚ) * (1/10) * min 1000 ((totalStats : ℚ) / 35)) 0) : ℤ))
  let m := pyTrunc ((base : ℚ) * (cpmult + daymult))
  let _ := rebirths
  if isAuto then pyFloorDiv m 2 else m

/-- The experience formula as the spec describes it (written from the
spec's words, for comparison with the code): base amount boosted by a
rebirth-scaled multiplier `1 + 0.5 * rebirths` and a stat-total bonus
capped at a fixed ceiling, 75% of the whole, then multiplied by the
gear-set multiplier plus the day-of-week bonus (plus the non-easy-mode
bonus), halved for passive/auto actors. -/
def specRewardXp (amount : ℤ) (rebirths : ℕ) (totalStats : ℤ)
    (xpmult daymult sessionBonus : ℚ) (isAuto : Bool) : ℤ :=
  let base : ℤ := max 1 amount
  let boosted : ℚ := (base : ℚ) * (1 + (1/2) * rebirths) +
    max ((base : ℚ) * min 25 ((totalStats : ℚ) / 500)) 0
  let v := pyRound ((3/4 : ℚ) * (pyTrunc boosted : ℤ))
  let v := pyTrunc ((v : ℚ) * (xpmult + daymult + sessionBonus))
  if isAuto then pyFloorDiv v 2 else v

/-- The currency formula the claim asserts (written from the spec's words):
like the experience formula, boosted by 75% of the same rebirth-scaled
multiplier `1 + 0.5 * rebirths` and a capped stat-total bonus, multiplied
by gear multiplier plus day bonus, halved for auto actors. -/
def specRewardCpClaim (amount : ℤ) (rebirths : ℕ) (totalStats : ℤ)
    (cpmult daymult : ℚ) (isAuto : Bool) : ℤ :=
  let base : ℤ := max 1 amount
  let boosted : ℚ := (base : ℚ) * (1 + (1/2) * rebirths) +
    max ((base : ℚ) * min 100 ((totalStats : ℚ) / 350)) 0
  let v := pyRound ((3/4 : ℚ) * (pyTrunc boosted : ℤ))
  let v := pyTrunc ((v : ℚ) * (cpmult + daymult))
  if isAuto then pyFloorDiv v 2 else v

/-- The currency formula with the rebirth term removed (the amended
claim, written in the same one-shot style as `specRewardCpClaim`). -/
def specRewardCpAmended (amount : ℤ) (rebirths : ℕ) (totalStats : ℤ)
    (cpmult daymult : ℚ) (isAuto : Bool) : ℤ :=
  let base : ℤ := max 1 amount
  let boosted : ℚ := (base : ℚ) +
    max ((base : ℚ) * min 100 ((totalStats : ℚ) / 350)) 0
  let v := pyRound ((3/4 : ℚ) * (pyTrunc boosted : ℤ))
  let v := pyTrunc ((v : ℚ) * (cpmult + daymult))
  let _ := rebirths
  if isAuto then pyFloorDiv v 2 else v

/-! ## Failure-path currency penalty -/

/-- The dexterity divisor of the failure penalty
(`adventure.py` lines 1443-1446 / 1385-1388): `min(1 / abs(dex), 1)` for
negative dexterity, `max(dex // 10, 1)` otherwise. -/
def lossDexDivisor (dexStat : ℤ) : ℚ :=
  if dexStat < 0 then min (1 / (|dexStat| : ℚ)) 1
  else ((max (pyFloorDiv dexStat 10) 1 : ℤ) : ℚ)

/-- The penalty multiplier (`adventure.py` lines 1442-1447 / 1384-1389):
`1/3` for rebirths ≥ 10, else 1%, divided by the dexterity divisor. -/
def lossMultiplier (rebirths : ℕ) (dexStat : ℤ) : ℚ :=
  (if 10 ≤ rebirths then (1/3 : ℚ) else 1/100) / lossDexDivisor dexStat

/-- `roll_pet_gold_loss` (`adventure.py` lines 1837-1846) with the
`randint(1, 100)` draw made explicit; an `always` pet perk forces the
roll to 1. -/
def rollPetGoldLoss (hasPet alwaysPerk : Bool) (petBonus : ℚ)
    (rollDraw : ℤ) (loss : ℤ) : ℤ :=
  let roll := if alwaysPerk then 1 else rollDraw
  if roll < 45 ∧ hasPet then pyRound (((loss : ℚ) * (petBonus - 1)) / 2)
  else 0

/-- The failure-path penalty applied to one participant
(`adventure.py` lines 1441-1458, identically 1383-1400): computes the base
loss, adds the pet component, caps the total at the balance, and either
withdraws it or zeroes the balance.  Returns
`(amount deducted, new balance)`. -/
def applyFailurePenalty (bal : ℤ) (rebirths : ℕ) (dexStat : ℤ)
    (hasPet alwaysPerk : Bool) (petBonus : ℚ) (petRoll : ℤ) : ℤ × ℤ :=
  if 0 < bal then
    let loss := pyRound ((bal : ℚ) * lossMultiplier rebirths dexStat)
    let petLoss := rollPetGoldLoss hasPet alwaysPerk petBonus petRoll loss
    let totalLoss := loss + petLoss
    let totalLoss := if bal < totalLoss then bal else totalLoss
    if totalLoss < bal then (totalLoss, bal - totalLoss) else (bal, 0)
  else (0, bal)

end Adventure

namespace Adventure

/-! ## Theorems about the Outcome History -/

theorem addResult_length_le (numRaids : ℕ) (h : 1 ≤ numRaids)
    (raids : List Raid) (hr : raids.length ≤ numRaids) (a : AddResultArgs) :
    (addResult numRaids raids a).length ≤ numRaids := by
  unfold addResult
  by_cases hc : numRaids ≤ raids.length
  · rw [if_pos hc]
    have ht : raids.tail.length = raids.length - 1 := List.length_tail raids
    simp only [List.length_append, List.length_cons, List.length_nil, ht]
    omega
  · rw [if_neg hc]
    simp only [List.length_append, List.length_cons, List.length_nil]
    omega

theorem foldl_addResult_length_le (numRaids : ℕ) (h : 1 ≤ numRaids)
    (calls : List AddResultArgs) :
    ∀ raids : List Raid, raids.length ≤ numRaids →
      (calls.foldl (addResult numRaids) raids).length ≤ numRaids := by
  induction calls with
  | nil => intro raids hr; simpa using hr
  | cons a rest ih =>
      intro raids hr
      simpa using ih (addResult numRaids raids a)
        (addResult_length_le numRaids h raids hr a)

/-- **C2**: for every community and every sequence of `add_result` calls,
the per-community queue never holds more than `num_raids` records, and a
record is evicted exactly when the queue is full, in which case it is the
oldest record (the queue becomes its tail plus the new record — strict
FIFO). -/
theorem add_result_bounded_fifo (numRaids : ℕ) (h : 1 ≤ numRaids) :
    (∀ calls : List AddResultArgs,
        (runAddResults numRaids calls).length ≤ numRaids) ∧
    (∀ (raids : List Raid) (a : AddResultArgs), numRaids ≤ raids.length →
        addResult numRaids raids a =
          raids.tail ++ [mkRaid numRaids raids.tail a]) ∧
    (∀ (raids : List Raid) (a : AddResultArgs), raids.length < numRaids →
        addResult numRaids raids a = raids ++ [mkRaid numRaids raids a]) := by
  refine ⟨fun calls => ?_, fun raids a hfull => ?_, fun raids a hroom => ?_⟩
  · exact foldl_addResult_length_le numRaids h calls [] (by simp)
  · simp [addResult, hfull]
  · simp [addResult, Nat.not_le_of_lt hroom]

/-- Witness for `add_result_bounded_fifo`: with a bound of 2, three
concrete `add_result` calls leave at most 2 records. -/
theorem add_result_bounded_fifo_witness :
    (runAddResults 2
      [{ main_action := "attack", amount := 10, num_ppl := 1, success := true,
         manual_users := [1], auto_users := [], exclusion_users := [] },
       { main_action := "talk", amount := 20, num_ppl := 2, success := false,
         manual_users := [2], auto_users := [1], exclusion_users := [] },
       { main_action := "attack", amount := 30, num_ppl := 2, success := true,
         manual_users := [], auto_users := [1, 2], exclusion_users := [2] }]).length ≤ 2 :=
  (add_result_bounded_fifo 2 (by decide)).1 _

/-- The tally loop of `get_stat_range` in closed form: attack/talk counts
and solo-adjusted totals are filter-lengths and filter-sums, wins are the
success count. -/
theorem foldl_tallyStep (raids : List Raid) :
    ∀ t : Tally,
      raids.foldl tallyStep t =
        { num_attack := t.num_attack + (attackRaids raids).length,
          attack_amount := t.attack_amount + ((attackRaids raids).map soloAdjAmount).sum,
          num_talk := t.num_talk + (talkRaids raids).length,
          talk_amount := t.talk_amount + ((talkRaids raids).map soloAdjAmount).sum,
          num_wins := t.num_wins + winCount raids } := by
  induction raids with
  | nil => intro t; simp [attackRaids, talkRaids, winCount]
  | cons r rs ih =>
      intro t
      by_cases ha : r.main_action = "attack" <;> by_cases hs : r.success <;>
        simp [List.foldl_cons, ih, tallyStep, ha, hs, attackRaids, talkRaids,
          winCount, soloAdjAmount, List.filter_cons, Tally.mk.injEq] <;>
        and_intros <;> first | omega | ring

/-- A concrete counterexample to "per-category statistic is the median":
on `sampleAttackQueue` (attack amounts 0, 0, 30) the code returns the mean
10, while the median of the recorded attack amounts is 0. -/
theorem get_stat_range_median_counterexample :
    (getStatRange sampleAttackQueue).average_attack = 10 ∧
    specMedian ((attackRaids sampleAttackQueue).map Raid.amount) = 0 ∧
    ¬ (getStatRange sampleAttackQueue).average_attack =
        specMedian ((attackRaids sampleAttackQueue).map Raid.amount) := by
  have h1 : (getStatRange sampleAttackQueue).average_attack = 10 := by
    norm_num [getStatRange, sampleAttackQueue, tallyStep]
  have h2 : specMedian ((attackRaids sampleAttackQueue).map Raid.amount) = 0 := by
    norm_num [specMedian, sortRats, insertSorted, attackRaids, sampleAttackQueue]
  exact ⟨h1, h2, by rw [h1, h2]; norm_num⟩

/-- **C3** (amended): for every non-empty queue, `get_stat_range` returns,
per dominant category, the *mean* of the recorded amounts (solo raids
counted once more at scale 0.25), not the median, and a win ratio equal to
the number of successful records divided by the total number of records. -/
theorem get_stat_range_mean_and_win_ratio (raids : List Raid) (h : ¬ raids = []) :
    (getStatRange raids).average_attack =
      (if ¬ attackRaids raids = []
        then ((attackRaids raids).map soloAdjAmount).sum / (attackRaids raids).length
        else 0) ∧
    (getStatRange raids).average_talk =
      (if ¬ talkRaids raids = []
        then ((talkRaids raids).map soloAdjAmount).sum / (talkRaids raids).length
        else 0) ∧
    (getStatRange raids).win_percent = (winCount raids : ℚ) / raids.length := by
  have hlen : ¬ raids.length = 0 := by simpa using fun hnil => h (List.length_eq_zero.mp hnil)
  unfold getStatRange
  rw [if_neg hlen, foldl_tallyStep]
  refine ⟨?_, ?_, ?_⟩
  · by_cases hA : attackRaids raids = [] <;>
      simp [hA, List.length_eq_zero, Nat.pos_iff_ne_zero]
  · by_cases hT : talkRaids raids = [] <;>
      simp [hT, List.length_eq_zero, Nat.pos_iff_ne_zero]
  · simp

/-- Witness for `get_stat_range_mean_and_win_ratio` at `sampleAttackQueue`. -/
theorem get_stat_range_mean_and_win_ratio_witness :
    (getStatRange sampleAttackQueue).average_attack =
      (if ¬ attackRaids sampleAttackQueue = []
        then ((attackRaids sampleAttackQueue).map soloAdjAmount).sum /
          (attackRaids sampleAttackQueue).length
        else 0) ∧
    (getStatRange sampleAttackQueue).average_talk =
      (if ¬ talkRaids sampleAttackQueue = []
        then ((talkRaids sampleAttackQueue).map soloAdjAmount).sum /
          (talkRaids sampleAttackQueue).length
        else 0) ∧
    (getStatRange sampleAttackQueue).win_percent =
      (winCount sampleAttackQueue : ℚ) / sampleAttackQueue.length :=
  get_stat_range_mean_and_win_ratio sampleAttackQueue (by simp [sampleAttackQueue])

/-- **C5**: on an empty queue `get_stat_range` returns the neutral
defaults: win ratio `0.5` and both per-category amounts `0`. -/
theorem get_stat_range_empty_defaults :
    (getStatRange []).win_percent = 1/2 ∧
    (getStatRange []).average_attack = 0 ∧
    (getStatRange []).average_talk = 0 := by
  refine ⟨rfl, rfl, rfl⟩

/-! ## Theorems about the Gate Check and the encounter outcome -/

/-- **C1**: on a finalized guardian (miniboss) encounter, whenever
`handle_basilisk` reports failure, `_result` computes `success = false`,
for every value of the accumulated attack, magic and diplomacy totals and
every hp/dipl target — even when both totals exceed the targets. -/
theorem gate_check_failure_forces_loss
    (reqItem : List Char) (slot : ℤ) (reacted : Bool)
    (ps : List GateParticipant) (attack magic diplomacy : ℚ) (hp dipl : ℤ)
    (h : handleBasilisk (some (reqItem, slot)) reacted ps = true) :
    resultSuccess attack magic diplomacy hp dipl
      (handleBasilisk (some (reqItem, slot)) reacted ps) = false := by
  rw [h]
  simp [resultSuccess]

/-- Witness for `gate_check_failure_forces_loss`: a lone participant
against a guardian requiring a party of more than 5 fails the gate, and
the encounter is lost although 999999 damage and 999999 diplomacy vastly
exceed the targets 10 and 10. -/
theorem gate_check_failure_forces_loss_witness :
    handleBasilisk (some ("members".data, 5)) false
        [{ sets := [], equipment := [] }] = true ∧
    resultSuccess 999999 0 999999 10 10
      (handleBasilisk (some ("members".data, 5)) false
        [{ sets := [], equipment := [] }]) = false :=
  ⟨by decide,
   gate_check_failure_forces_loss _ _ _ _ _ _ _ _ _ (by decide)⟩

/-! ## Theorems about roll classification -/

theorem exactlyOneOutcome_total (c : RollOutcome) : exactlyOneOutcome c := by
  cases c <;> simp [exactlyOneOutcome]

/-- **C6**: in each resolver (melee, magic, diplomacy), for every roll,
ceiling, class and stat total, the roll is classified into exactly one of
fumble/critical/normal, and the three classifications are characterized by
the branch conditions with their if/elif priority: fumble exactly on the
fumble condition, critical exactly on the critical condition minus the
fumble condition, normal exactly on neither. -/
theorem resolver_roll_classification (roll maxRoll att intStat cha : ℤ)
    (hc : HeroClass) :
    exactlyOneOutcome (classifyFight roll maxRoll att hc) ∧
    exactlyOneOutcome (classifyMagic roll maxRoll intStat hc) ∧
    exactlyOneOutcome (classifyTalk roll maxRoll cha hc) ∧
    (classifyFight roll maxRoll att hc = .fumble ↔
      ((roll : ℚ) / maxRoll < 1/10 ∨ roll + att ≤ 0)) ∧
    (classifyFight roll maxRoll att hc = .critical ↔
      (¬ ((roll : ℚ) / maxRoll < 1/10 ∨ roll + att ≤ 0) ∧
       (19/20 < (roll : ℚ) / maxRoll ∨ hc = .berserker ∨ hc = .ranger))) ∧
    (classifyFight roll maxRoll att hc = .normal ↔
      (¬ ((roll : ℚ) / maxRoll < 1/10 ∨ roll + att ≤ 0) ∧
       ¬ (19/20 < (roll : ℚ) / maxRoll ∨ hc = .berserker ∨ hc = .ranger))) ∧
    (classifyMagic roll maxRoll intStat hc = .fumble ↔
      ((roll : ℚ) / maxRoll < 1/10 ∨ roll + intStat ≤ 0)) ∧
    (classifyMagic roll maxRoll intStat hc = .critical ↔
      (¬ ((roll : ℚ) / maxRoll < 1/10 ∨ roll + intStat ≤ 0) ∧
       (19/20 < (roll : ℚ) / maxRoll ∨ hc = .wizard))) ∧
    (classifyTalk roll maxRoll cha hc = .fumble ↔
      ((roll : ℚ) / maxRoll < 1/10 ∨ roll + cha ≤ 0)) ∧
    (classifyTalk roll maxRoll cha hc = .critical ↔
      (¬ ((roll : ℚ) / maxRoll < 1/10 ∨ roll + cha ≤ 0) ∧
       (19/20 < (roll : ℚ) / maxRoll ∨ hc = .bard))) := by
  refine ⟨exactlyOneOutcome_total _, exactlyOneOutcome_total _,
    exactlyOneOutcome_total _, ?_, ?_, ?_, ?_, ?_, ?_, ?_⟩ <;>
  · simp only [classifyFight, classifyMagic, classifyTalk]
    split_ifs with h1 h2 <;> simp_all

/-! ## Theorems about the Difficulty Scaler -/

/-- A concrete counterexample to "the scaling step floors defenses at
0.5": with the neutral Difficulty Sample of an empty history
(win ratio 0.5), a monster whose physical-defense baseline is 0.1, stat
multiplier 1, and an admissible uniform draw of 0.5,
`_dynamic_monster_stats_simple` returns `pdef = 0.05 < 0.5`. -/
theorem scale_stats_defense_floor_counterexample :
    ((getStatRange []).win_percent ≤ 1/2 ∧
      (1/2 : ℚ) ≤ (getStatRange []).win_percent + 2/5) ∧
    (dynamicMonsterStatsSimple (getStatRange [])
        { hp := 100, dipl := 100, pdef := 1/10, mdef := 1, cdef := 1 } 1
        { hpU := 1/2, diplU := 1/2, pdefU := 1/2, mdefU := 1/2,
          cdefU := 1/2 }).pdef = 1/20 ∧
    ¬ (1/2 : ℚ) ≤ (dynamicMonsterStatsSimple (getStatRange [])
        { hp := 100, dipl := 100, pdef := 1/10, mdef := 1, cdef := 1 } 1
        { hpU := 1/2, diplU := 1/2, pdefU := 1/2, mdefU := 1/2,
          cdefU := 1/2 }).pdef := by
  norm_num [getStatRange, dynamicMonsterStatsSimple, fluctuateStats]

/-- **C4** (amended): `_dynamic_monster_stats_simple` itself does not
floor the defense multipliers; the 0.5 floor is applied where they are
consumed — `handle_fight` divides by `max(pdef, 0.5)` and
`max(mdef, 0.5)` and `handle_talk` by `max(cdef, 0.5)` — so for every
monster, every stat multiplier and every draw, each defense value the
resolvers actually use is at least 0.5. -/
theorem used_defense_multipliers_floored (sr : StatRange) (choice : Monster)
    (ms : ℚ) (d : FluctuateDraws) :
    1/2 ≤ usedPdef (dynamicMonsterStatsSimple sr choice ms d) ∧
    1/2 ≤ usedMdef (dynamicMonsterStatsSimple sr choice ms d) ∧
    1/2 ≤ usedCdef (dynamicMonsterStatsSimple sr choice ms d) :=
  ⟨le_max_right _ _, le_max_right _ _, le_max_right _ _⟩

/-! ## Theorems about the Treasure Tables -/

theorem choosePick_mem (l : List Treasure) (pick : ℕ) (h : ¬ l = []) :
    choosePick l pick ∈ l := by
  have hlt : pick % l.length < l.length :=
    Nat.mod_lt _ (List.length_pos.mpr h)
  rw [choosePick, List.getD_eq_getElem _ _ hlt]
  exact List.getElem_mem hlt

theorem treasure_ne_empty_of_setPiece_pos (t : Treasure)
    (h : 0 < t.setPiece) : ¬ t = emptyTreasure := by
  intro hEq
  rw [hEq] at h
  simp [emptyTreasure] at h

theorem bossLoot_setPiece_pos (pick : ℕ) :
    0 < (choosePick bossLoot pick).setPiece := by
  have h := choosePick_mem bossLoot pick (by simp [bossLoot])
  have h' : choosePick bossLoot pick = bossLoot.get ⟨0, by simp [bossLoot]⟩ ∨
      choosePick bossLoot pick = bossLoot.get ⟨1, by simp [bossLoot]⟩ ∨
      choosePick bossLoot pick = bossLoot.get ⟨2, by simp [bossLoot]⟩ := by
    simpa [bossLoot] using h
  rcases h' with h' | h' | h' <;> rw [h'] <;> decide

theorem transcendedBossLoot_setPiece_pos (pick : ℕ) :
    0 < (choosePick transcendedBossLoot pick).setPiece := by
  have h := choosePick_mem transcendedBossLoot pick (by simp [transcendedBossLoot])
  have h' : choosePick transcendedBossLoot pick =
        transcendedBossLoot.get ⟨0, by simp [transcendedBossLoot]⟩ ∨
      choosePick transcendedBossLoot pick =
        transcendedBossLoot.get ⟨1, by simp [transcendedBossLoot]⟩ ∨
      choosePick transcendedBossLoot pick =
        transcendedBossLoot.get ⟨2, by simp [transcendedBossLoot]⟩ := by
    simpa [transcendedBossLoot] using h
  rcases h' with h' | h' | h' <;> rw [h'] <;> decide

/-- A concrete counterexample to "boss target, gate check absent, hp
contribution below the 80 threshold ⇒ empty bundle": a boss with hp
target 50 is slain by 60 damage (a contribution below 80), and
`get_treasure` returns the bundle `{epic 3, legendary 5, set 1}` — not
the empty bundle — because the boss branch ignores the amount ladder. -/
theorem boss_treasure_below_threshold_counterexample :
    ((50 : ℤ) ≤ 60 ∧ (60 : ℤ) < 80) ∧
    getTreasure false false true false 50 0 true false false false 1 0 =
      { epic := 3, legendary := 5, setPiece := 1 } ∧
    ¬ getTreasure false false true false 50 0 true false false false 1 0 =
        emptyTreasure := by
  refine ⟨by decide, by decide, by decide⟩

/-- **C9** (amended): for a boss-tier target that is not a guardian
encounter (gate check absent, `failed = false`), `get_treasure` returns
the empty Treasure Bundle exactly when the target was neither slain nor
persuaded; in particular an hp contribution below the hp target (and no
diplomacy success) yields the empty bundle, while the 80-amount threshold
plays no role for boss targets. -/
theorem boss_treasure_empty_iff (hp dipl : ℤ)
    (slain persuaded critBonus transcended : Bool) (roll pick : ℕ) :
    (getTreasure false transcended true false hp dipl slain persuaded false
        critBonus roll pick = emptyTreasure) ↔
      (slain = false ∧ persuaded = false) := by
  have hBoss := bossLoot_setPiece_pos pick
  have hTrans := transcendedBossLoot_setPiece_pos pick
  cases slain <;> cases persuaded
  case false.false => simp [getTreasure]
  all_goals
    simp only [getTreasure, Bool.false_or, Bool.true_or, Bool.or_true,
      Bool.or_false, Bool.not_false, Bool.and_true, Bool.true_and, if_true,
      if_false, Bool.false_eq_true, Bool.true_eq_false, false_and, and_false,
      iff_false]
  all_goals
    cases transcended <;> cases critBonus <;>
      refine treasure_ne_empty_of_setPiece_pos _ ?_ <;> simp_all

/-! ## Theorems about the failure-path penalty -/

/-- **C8**: on the failure path, for every participant with a non-negative
starting balance, the amount actually deducted (base loss from balance and
rebirth tier, scaled by dexterity, plus the companion-pet component,
capped at the balance) never exceeds the balance, and the balance after
the penalty is never negative. -/
theorem failure_penalty_keeps_balance_nonneg (bal : ℤ) (h : 0 ≤ bal)
    (rebirths : ℕ) (dexStat : ℤ) (hasPet alwaysPerk : Bool) (petBonus : ℚ)
    (petRoll : ℤ) :
    (applyFailurePenalty bal rebirths dexStat hasPet alwaysPerk petBonus
      petRoll).1 ≤ bal ∧
    0 ≤ (applyFailurePenalty bal rebirths dexStat hasPet alwaysPerk petBonus
      petRoll).2 ∧
    (applyFailurePenalty bal rebirths dexStat hasPet alwaysPerk petBonus
        petRoll).2 =
      bal - (applyFailurePenalty bal rebirths dexStat hasPet alwaysPerk
        petBonus petRoll).1 := by
  simp only [applyFailurePenalty]
  generalize pyRound ((bal : ℚ) * lossMultiplier rebirths dexStat) = L
  generalize rollPetGoldLoss hasPet alwaysPerk petBonus petRoll L = P
  split_ifs <;> simp_all

/-- Witness for `failure_penalty_keeps_balance_nonneg`: a petless
rebirth-12 participant with balance 100 and dexterity 0. -/
theorem failure_penalty_keeps_balance_nonneg_witness :
    (applyFailurePenalty 100 12 0 false false 0 50).1 ≤ 100 ∧
    0 ≤ (applyFailurePenalty 100 12 0 false false 0 50).2 ∧
    (applyFailurePenalty 100 12 0 false false 0 50).2 =
      100 - (applyFailurePenalty 100 12 0 false false 0 50).1 :=
  failure_penalty_keeps_balance_nonneg 100 (by norm_num) 12 0 false false 0 50

/-! ## Theorems about the roll modifier caps -/

theorem pyRound_nonneg (q : ℚ) (h : 0 ≤ q) : 0 ≤ pyRound q := by
  have h0 : (0 : ℤ) ≤ ⌊q⌋ := Int.floor_nonneg.mpr h
  simp only [pyRound]
  split_ifs <;> omega

theorem rollMod_nonneg (cm : ℤ) (h : 0 ≤ cm) : 0 ≤ rollMod cm := by
  unfold rollMod
  split_ifs with h0
  · exact le_refl 0
  · exact pyRound_nonneg _ (by positivity)

theorem critMod_nonneg (dex luck stat : ℤ) : 0 ≤ critMod dex luck stat :=
  le_max_right _ _

theorem critModTalk_nonneg (dex luck intStat cha : ℤ) :
    0 ≤ critModTalk dex luck intStat cha :=
  le_max_right _ _

theorem finalRoll_in_range (lo hi r : ℤ) (h0 : 0 ≤ lo) (hlo : 1 + lo ≤ r)
    (hhi : r ≤ hi) : 1 ≤ finalRoll r ∧ finalRoll r ≤ hi := by
  have h1r : (1 : ℤ) ≤ r := by omega
  rw [finalRoll, max_eq_left h1r]
  exact ⟨h1r, hhi⟩

theorem rollCap_bounds (cm : ℤ) (hcm : 0 ≤ cm) (rebirths : ℕ) :
    (rebirths < 15 → (rollCap cm rebirths).1 ≤ 15 ∧ (rollCap cm rebirths).2 = 20) ∧
    (15 ≤ rebirths → (rollCap cm rebirths).1 ≤ 45 ∧ 50 ≤ (rollCap cm rebirths).2) ∧
    0 ≤ (rollCap cm rebirths).1 ∧
    1 + (rollCap cm rebirths).1 ≤ (rollCap cm rebirths).2 := by
  have hm : 0 ≤ rollMod cm := rollMod_nonneg cm hcm
  simp only [rollCap, maxRollFor]
  split_ifs <;> dsimp only <;> omega

theorem rollCapTalk_bounds (cm : ℤ) (hcm : 0 ≤ cm) (rebirths : ℕ) :
    (rebirths < 15 → (rollCapTalk cm rebirths).1 ≤ 15 ∧
      (rollCapTalk cm rebirths).2 = 20) ∧
    (15 ≤ rebirths → (rollCapTalk cm rebirths).1 ≤ 45 ∧
      50 ≤ (rollCapTalk cm rebirths).2) ∧
    0 ≤ (rollCapTalk cm rebirths).1 ∧
    1 + (rollCapTalk cm rebirths).1 ≤ (rollCapTalk cm rebirths).2 := by
  have hm : 0 ≤ rollMod cm := rollMod_nonneg cm hcm
  simp only [rollCapTalk, maxRollFor]
  split_ifs <;> dsimp only <;> omega

/-- **C10**: in the melee/magic paths of `handle_fight`, the cleric path
of `handle_pray` (which uses the same `max(max(dex, luck // 2) +
stat // 20, 0)` modifier and cap as the magic path) and in `handle_talk`,
the roll modifier is capped — at 15 with ceiling 20 when rebirths < 15,
otherwise at 45 with ceiling at least 50 — so the lower bound `1 + mod`
of the `randint` call never exceeds the ceiling, and the resulting roll
`max(randint(1 + mod, max_roll), 1)` always lies in `[1, max_roll]`. -/
theorem resolver_roll_modifier_capped (dex luck att intStat cha : ℤ)
    (rebirths : ℕ) (r : ℤ) :
    ((rebirths < 15 → (rollCap (critMod dex luck att) rebirths).1 ≤ 15 ∧
        (rollCap (critMod dex luck att) rebirths).2 = 20) ∧
      (15 ≤ rebirths → (rollCap (critMod dex luck att) rebirths).1 ≤ 45 ∧
        50 ≤ (rollCap (critMod dex luck att) rebirths).2) ∧
      1 + (rollCap (critMod dex luck att) rebirths).1 ≤
        (rollCap (critMod dex luck att) rebirths).2 ∧
      (1 + (rollCap (critMod dex luck att) rebirths).1 ≤ r →
        r ≤ (rollCap (critMod dex luck att) rebirths).2 →
        1 ≤ finalRoll r ∧ finalRoll r ≤ (rollCap (critMod dex luck att) rebirths).2)) ∧
    ((rebirths < 15 → (rollCap (critMod dex luck intStat) rebirths).1 ≤ 15 ∧
        (rollCap (critMod dex luck intStat) rebirths).2 = 20) ∧
      1 + (rollCap (critMod dex luck intStat) rebirths).1 ≤
        (rollCap (critMod dex luck intStat) rebirths).2 ∧
      (1 + (rollCap (critMod dex luck intStat) rebirths).1 ≤ r →
        r ≤ (rollCap (critMod dex luck intStat) rebirths).2 →
        1 ≤ finalRoll r ∧
          finalRoll r ≤ (rollCap (critMod dex luck intStat) rebirths).2)) ∧
    ((rebirths < 15 →
        (rollCapTalk (critModTalk dex luck intStat cha) rebirths).1 ≤ 15 ∧
        (rollCapTalk (critModTalk dex luck intStat cha) rebirths).2 = 20) ∧
      (15 ≤ rebirths →
        (rollCapTalk (critModTalk dex luck intStat cha) rebirths).1 ≤ 45 ∧
        50 ≤ (rollCapTalk (critModTalk dex luck intStat cha) rebirths).2) ∧
      1 + (rollCapTalk (critModTalk dex luck intStat cha) rebirths).1 ≤
        (rollCapTalk (critModTalk dex luck intStat cha) rebirths).2 ∧
      (1 + (rollCapTalk (critModTalk dex luck intStat cha) rebirths).1 ≤ r →
        r ≤ (rollCapTalk (critModTalk dex luck intStat cha) rebirths).2 →
        1 ≤ finalRoll r ∧
          finalRoll r ≤
            (rollCapTalk (critModTalk dex luck intStat cha) rebirths).2)) := by
  have h1 := rollCap_bounds (critMod dex luck att)
    (critMod_nonneg dex luck att) rebirths
  have h2 := rollCap_bounds (critMod dex luck intStat)
    (critMod_nonneg dex luck intStat) rebirths
  have h3 := rollCapTalk_bounds (critModTalk dex luck intStat cha)
    (critModTalk_nonneg dex luck intStat cha) rebirths
  exact ⟨⟨h1.1, h1.2.1, h1.2.2.2,
      fun hlo hhi => finalRoll_in_range _ _ _ h1.2.2.1 hlo hhi⟩,
    ⟨h2.1, h2.2.2.2,
      fun hlo hhi => finalRoll_in_range _ _ _ h2.2.2.1 hlo hhi⟩,
    ⟨h3.1, h3.2.1, h3.2.2.2,
      fun hlo hhi => finalRoll_in_range _ _ _ h3.2.2.1 hlo hhi⟩⟩

/-- Witness for `resolver_roll_modifier_capped`: dexterity 100, no luck,
no stat total, 5 rebirths gives modifier 10 and ceiling 20; a draw of 16
stays a valid roll in `[1, 20]`. -/
theorem resolver_roll_modifier_capped_witness :
    1 ≤ finalRoll 16 ∧ finalRoll 16 ≤ (rollCap (critMod 100 0 0) 5).2 :=
  (resolver_roll_modifier_capped 100 0 0 0 0 5 16).1.2.2.2
    (by norm_num [rollCap, rollMod, critMod, maxRollFor, pyRound, pyFloorDiv])
    (by norm_num [rollCap, rollMod, critMod, maxRollFor, pyRound, pyFloorDiv])

/-! ## Theorems about the Reward Distributor -/

theorem reward_xp_inner (x ts : ℚ) (hx : 0 ≤ x) (r : ℕ) :
    x + x * (1/2) * (r : ℚ) + max (x * (1/10) * min 250 (ts / 50)) 0 =
    x * (1 + (1/2) * (r : ℚ)) + max (x * min 25 (ts / 500)) 0 := by
  have h1 : x * (1/10) * min 250 (ts / 50) = x * min 25 (ts / 500) := by
    rw [mul_min_of_nonneg _ _ (mul_nonneg hx (by norm_num : (0:ℚ) ≤ 1/10)),
        mul_min_of_nonneg _ _ hx]
    congr 1 <;> ring
  rw [h1]
  ring

theorem reward_cp_inner (x ts : ℚ) (hx : 0 ≤ x) :
    x + max (x * (1/10) * min 1000 (ts / 35)) 0 =
    x + max (x * min 100 (ts / 350)) 0 := by
  have h1 : x * (1/10) * min 1000 (ts / 35) = x * min 100 (ts / 350) := by
    rw [mul_min_of_nonneg _ _ (mul_nonneg hx (by norm_num : (0:ℚ) ≤ 1/10)),
        mul_min_of_nonneg _ _ hx]
    congr 1 <;> ring
  rw [h1]

/-- A concrete counterexample to "the currency reward is boosted by 75% of
a rebirth-scaled multiplier": for base amount 100, 2 rebirths and no
stats, the code pays 75 currency while the claimed formula (the experience
formula's rebirth boost applied to currency) would pay 150; the code's
currency reward in fact ignores the rebirth count. -/
theorem reward_currency_rebirth_counterexample :
    rewardUserCp 100 2 0 1 0 false = 75 ∧
    specRewardCpClaim 100 2 0 1 0 false = 150 ∧
    ¬ rewardUserCp 100 2 0 1 0 false = specRewardCpClaim 100 2 0 1 0 false := by
  have h1 : rewardUserCp 100 2 0 1 0 false = 75 := by
    norm_num [rewardUserCp, pyRound, pyTrunc]
  have h2 : specRewardCpClaim 100 2 0 1 0 false = 150 := by
    norm_num [specRewardCpClaim, pyRound, pyTrunc]
  refine ⟨h1, h2, ?_⟩
  rw [h1, h2]
  norm_num

/-- **C7** (amended): per actor, the experience reward is the base amount
boosted by the rebirth-scaled multiplier `1 + 0.5 · rebirths` and a
stat-total bonus capped at a fixed ceiling, taken at 75% and multiplied by
the gear-set multiplier plus the day-of-week bonus (plus the
non-easy-mode bonus); the currency reward is built the same way but
without any rebirth boost (it is independent of the rebirth count); and
passive/auto actors receive the floored half of each. -/
theorem reward_formulas (amount : ℤ) (rebirths rebirths' : ℕ)
    (totalStats : ℤ) (xpmult cpmult daymult sessionBonus : ℚ)
    (isAuto : Bool) :
    (rewardUserXp amount rebirths totalStats xpmult daymult sessionBonus
        isAuto =
      specRewardXp amount rebirths totalStats xpmult daymult sessionBonus
        isAuto) ∧
    (rewardUserCp amount rebirths totalStats cpmult daymult isAuto =
      specRewardCpAmended amount rebirths totalStats cpmult daymult isAuto) ∧
    (rewardUserCp amount rebirths totalStats cpmult daymult isAuto =
      rewardUserCp amount rebirths' totalStats cpmult daymult isAuto) ∧
    (rewardUserXp amount rebirths totalStats xpmult daymult sessionBonus
        true =
      pyFloorDiv (rewardUserXp amount rebirths totalStats xpmult daymult
        sessionBonus false) 2) ∧
    (rewardUserCp amount rebirths totalStats cpmult daymult true =
      pyFloorDiv (rewardUserCp amount rebirths totalStats cpmult daymult
        false) 2) := by
  have hx : (0 : ℚ) ≤ ((max 1 amount : ℤ) : ℚ) := by
    have h1 : (0 : ℤ) ≤ max 1 amount := le_trans zero_le_one (le_max_left _ _)
    exact_mod_cast h1
  refine ⟨?_, ?_, rfl, rfl, rfl⟩
  · simp only [rewardUserXp, specRewardXp]
    rw [reward_xp_inner _ _ hx]
  · simp only [rewardUserCp, specRewardCpAmended]
    rw [reward_cp_inner _ _ hx]

end Adventure
